import Mathlib

/-! Verification of the "Fifth Grade Optimizer" HTTP service
(`src/models/a2a.py`, `src/agents/optimizer_agent.py`, `src/main.py`)
as a shallow embedding in Lean 4.

The data model mirrors `models/a2a.py`; the agent logic mirrors
`OptimizerAgent.process_messages` and `OptimizerAgent._call_gemini_with_retry`
in `agents/optimizer_agent.py`; the two POST routes mirror `a2a_optimizer`
and `optimize_text` in `main.py`.
-/

namespace FifthGrade

/-- Literal type of `MessagePart.kind`: one of `"text"`, `"data"`, `"file"`
(`models/a2a.py`, class `MessagePart`). -/
inductive PartKind
  | text
  | data
  | file
deriving DecidableEq, Repr

/-- Model of `MessagePart` (`models/a2a.py`): `kind`, optional `text`, optional `data`
(a free-form mapping, never inspected by the code, modelled opaquely),
optional `file_url`. -/
structure MessagePart where
  kind : PartKind
  text : Option String := none
  dataField : Option Unit := none
  file_url : Option String := none
deriving DecidableEq, Repr

/-- Literal type of `A2AMessage.role`: `"user" | "agent" | "system"`. -/
inductive Role
  | user
  | agent
  | system
deriving DecidableEq, Repr

/-- Model of `A2AMessage` (`models/a2a.py`): a conversational turn.  The constant
`kind="message"` field is omitted; `messageId` is generated (uuid4) when not
supplied, so here it is always a concrete string provided by the caller or
by the generator record `GenIds`.  `metadata` is never inspected and is
modelled opaquely. -/
structure A2AMessage where
  role : Role
  parts : List MessagePart
  messageId : String
  taskId : Option String := none
  metadata : Option Unit := none
deriving DecidableEq, Repr

/-- Literal type of `TaskStatus.state`: `"working" | "completed" | "input-required" | "failed"`. -/
inductive TaskState
  | working
  | completed
  | inputRequired
  | failed
deriving DecidableEq, Repr

/-- Model of `TaskStatus` (`models/a2a.py`): terminal state, generated ISO timestamp,
optional reply message. -/
structure TaskStatus where
  state : TaskState
  timestamp : String
  message : Option A2AMessage := none
deriving DecidableEq, Repr

/-- Model of `Artifact` (`models/a2a.py`): generated `artifactId`, a `name`, parts. -/
structure Artifact where
  artifactId : String
  name : String
  parts : List MessagePart
deriving DecidableEq, Repr

/-- Model of `TaskResult` (`models/a2a.py`): the result record returned by
`process_messages`.  The constant `kind="task"` field is omitted. -/
structure TaskResult where
  id : String
  contextId : String
  status : TaskStatus
  artifacts : List Artifact := []
  history : List A2AMessage := []
deriving DecidableEq, Repr

/-! Helpers modelling Python string operations and truthiness. -/

/-- Python `str.strip()` on a character list: drop whitespace from both ends. -/
def stripChars (l : List Char) : List Char :=
  ((l.dropWhile Char.isWhitespace).reverse.dropWhile Char.isWhitespace).reverse

/-- Python `str.strip()`: remove leading and trailing whitespace. -/
def pyStrip (s : String) : String :=
  String.mk (stripChars s.data)

/-- Python truthiness of an optional string (`p.text` in the code):
truthy iff present and non-empty. -/
def optTruthy : Option String → Bool
  | none => false
  | some s => s ≠ ""

/-- Python `x or y` on an optional string (`context_id or str(uuid4())`):
keeps `x` when it is a truthy string, otherwise falls back to `y`. -/
def pyOr (x : Option String) (y : String) : String :=
  match x with
  | some s => if s = "" then y else s
  | none => y

/-! The optimizer agent (`agents/optimizer_agent.py`). -/

/-- A `raise ValueError(msg)` escaping `process_messages`. -/
inductive AgentError
  | valueError (msg : String)
deriving DecidableEq, Repr

/-- Python `str(exc)` for a `ValueError`. -/
def AgentError.details : AgentError → String
  | .valueError m => m

/-- Freshly generated identifiers and timestamp consumed by one
`process_messages` call (`str(uuid4())` / `datetime.utcnow().isoformat()`
in the source), made explicit parameters of the embedding. -/
structure GenIds where
  taskId : String
  contextId : String
  messageId : String
  artifactId : String
  timestamp : String
deriving DecidableEq, Repr

/-- The predicate of the generator expression in `process_messages`:
`p.kind == "text" and p.text` (Python truthiness on `p.text`). -/
def isTruthyTextPart (p : MessagePart) : Bool :=
  p.kind == PartKind.text && optTruthy p.text

/-- Model of `next((p.text.strip() for p in user_msg.parts if p.kind == "text" and p.text), "")`:
the stripped text of the first part whose kind is `"text"` and whose `text`
is truthy, defaulting to `""`. -/
def firstTruthyTextStripped : List MessagePart → String
  | [] => ""
  | p :: rest =>
      if isTruthyTextPart p then pyStrip (p.text.getD "")
      else firstTruthyTextStripped rest

/-- Model of `OptimizerAgent.process_messages` (`agents/optimizer_agent.py` lines 59-102).
`simplifyFn` stands for a returning run of `_call_gemini_with_retry`
(that call is modelled separately as `callGeminiWithRetry`); `g` supplies the
generated uuids/timestamp. -/
def processMessages (g : GenIds) (simplifyFn : String → String)
    (messages : List A2AMessage) (contextId taskId : Option String) :
    Except AgentError TaskResult :=
  let contextId := pyOr contextId g.contextId
  let taskId := pyOr taskId g.taskId
  match messages.getLast? with
  | none => .error (.valueError "No messages provided")
  | some userMsg =>
      let inputText := firstTruthyTextStripped userMsg.parts
      if inputText = "" then .error (.valueError "No text content in message")
      else
        let simplified := simplifyFn inputText
        let responseMsg : A2AMessage :=
          { role := .agent
            parts := [{ kind := .text, text := some simplified }]
            messageId := g.messageId
            taskId := some taskId }
        let artifact : Artifact :=
          { artifactId := g.artifactId
            name := "simplified_text"
            parts := [{ kind := .text, text := some simplified }] }
        .ok { id := taskId
              contextId := contextId
              status := { state := .completed, timestamp := g.timestamp,
                          message := some responseMsg }
              artifacts := [artifact]
              history := messages ++ [responseMsg] }

/-! Model of `_call_gemini_with_retry` (`agents/optimizer_agent.py` lines 107-145).

One provider attempt either yields an HTTP response (status plus what the
code can extract from the body) or raises `httpx.RequestError`.  For a 200
response the code evaluates
`data["candidates"][0]["content"]["parts"][0]["text"]`; `extracted` holds
`some t` when the body is well-formed JSON with that path present (value
`t`) and `none` when that evaluation would raise (`JSONDecodeError`,
`KeyError`, `IndexError` — none of which the code catches). -/
inductive ProviderOutcome
  | http (status : Nat) (extracted : Option String)
  | networkError (msg : String)
deriving DecidableEq, Repr

/-- How one run of `_call_gemini_with_retry` ends: a returned string, or an
exception other than `httpx.RequestError` propagating to the caller. -/
inductive CallResult
  | ok (s : String)
  | raised (msg : String)
deriving DecidableEq, Repr

/-- Fallback string at `optimizer_agent.py` line 137 (note the U+2019
apostrophe in the source). -/
def fallbackSimplify : String := "Sorry, I couldn’t simplify the text right now."

/-- Fallback string at `optimizer_agent.py` line 142 (U+2019 apostrophe). -/
def fallbackReach : String := "Sorry, I couldn’t reach the simplification service."

/-- Fallback string at `optimizer_agent.py` line 145. -/
def fallbackGeneric : String := "Sorry, something went wrong while simplifying."

/-- Python error text of the backoff call `await httpx._utils.sleep(...)`
(`optimizer_agent.py` lines 132 and 143): the `httpx._utils` module exports
no `sleep` in any httpx release, so evaluating the attribute raises
`AttributeError`.  That is not an `httpx.RequestError`, so the handler at
line 139 does not catch it (line 132 sits inside the `try` but the exception
type does not match; line 143 sits inside the `except` block itself), and it
propagates to the caller. -/
def sleepAttributeError : String :=
  "module \x27httpx._utils\x27 has no attribute \x27sleep\x27"

/-- Model of the `for attempt in range(max_retries)` loop, with `remaining` the number
of loop iterations left and `attempt` the current zero-based index
(invariant: `attempt + remaining = max_retries`).  `sleeps` records the
backoff waits actually performed, in order; since the sleep call itself
raises `AttributeError` before any wait happens (see `sleepAttributeError`),
no wait is ever recorded: the 429 path (line 132) and the non-final
network-error path (line 143) end the whole call with that uncaught
exception.  Falling out of the loop returns the generic fallback
(line 145). -/
def retryLoop (outcomes : Nat → ProviderOutcome) (maxRetries : Nat) :
    Nat → Nat → List Nat → CallResult × List Nat
  | 0, _, sleeps => (.ok fallbackGeneric, sleeps)
  | remaining + 1, attempt, sleeps =>
      match outcomes attempt with
      | .http status extracted =>
          if status = 200 then
            match extracted with
            | some t => (.ok t, sleeps)
            | none => (.raised "malformed 200 response body", sleeps)
          else if status = 429 then
            (.raised sleepAttributeError, sleeps)
          else if attempt = maxRetries - 1 then (.ok fallbackSimplify, sleeps)
          else retryLoop outcomes maxRetries remaining (attempt + 1) sleeps
      | .networkError _ =>
          if attempt = maxRetries - 1 then (.ok fallbackReach, sleeps)
          else (.raised sleepAttributeError, sleeps)

/-- Model of `OptimizerAgent._call_gemini_with_retry(text, max_retries)`: runs the
retry loop over the sequence of provider outcomes (`outcomes n` is what the
`n`-th POST attempt produces), returning the final result together with the
list of backoff sleeps performed. -/
def callGeminiWithRetry (outcomes : Nat → ProviderOutcome) (maxRetries : Nat := 3) :
    CallResult × List Nat :=
  retryLoop outcomes maxRetries maxRetries 0 []

/-! Model of POST `/optimize` (`main.py` lines 162-180).

The handler body observes the request only through `await request.json()`
and `data.get("text", "")`.  `OptimizeBody` enumerates what those can see:
the body fails to parse; it parses to a non-object (so `data.get` raises
`AttributeError`); or it parses to an object whose `"text"` member is
absent, a JSON string, or some non-string value (on which `.strip()` raises
`AttributeError`).  An exception escaping the handler is turned into an
HTTP 500 by the framework, modelled as `serverError`. -/
inductive TextFieldValue
  | str (s : String)
  | nonStr
deriving DecidableEq, Repr

/-- The parse outcome of a `/optimize` request body, as observed by the
handler. -/
inductive OptimizeBody
  | invalidJson
  | nonDict
  | dict (text : Option TextFieldValue)
deriving DecidableEq, Repr

/-- A JSON body returned (with HTTP 200) by the `/optimize` handler:
either `{"error": msg}` or `{"original": o, "optimized": p}` (where the
`optimized` member is `artifacts[0].parts[0].text`, an optional string). -/
inductive OptimizeOut
  | errorMsg (msg : String)
  | success (original : String) (optimized : Option String)
deriving DecidableEq, Repr

/-- The HTTP-level outcome of a `/optimize` request: a 200 response with the
handler's returned body, or a framework-generated 500 from an exception
escaping the handler. -/
inductive OptimizeResponse
  | ok (body : OptimizeOut)
  | serverError
deriving DecidableEq, Repr

/-- Model of `optimize_text` (`main.py` lines 162-180).  `agentReady` is whether the
module-global `optimizer_agent` is set; `simplifyFn` stands for a returning
run of the provider call inside `process_messages`. -/
def optimizeText (g : GenIds) (simplifyFn : String → String) (agentReady : Bool)
    (body : OptimizeBody) : OptimizeResponse :=
  match body with
  | .invalidJson => .ok (.errorMsg "Invalid JSON")
  | .nonDict => .serverError
  | .dict textField =>
      match textField with
      | some .nonStr => .serverError
      | none =>
          -- data.get("text", "") = "" and "".strip() is falsy
          .ok (.errorMsg "No text provided.")
      | some (.str s) =>
          let text := pyStrip s
          if text = "" then .ok (.errorMsg "No text provided.")
          else if !agentReady then .ok (.errorMsg "Optimizer agent not initialized.")
          else
            let dummyMsg : A2AMessage :=
              { role := .user
                parts := [{ kind := .text, text := some text }]
                messageId := g.messageId }
            match processMessages g simplifyFn [dummyMsg] none none with
            | .error _ => .serverError
            | .ok result =>
                match result.artifacts with
                | [] => .ok (.success text (some "Failed to simplify."))
                | a :: _ =>
                    match a.parts with
                    | [] => .serverError   -- artifacts[0].parts[0] raises IndexError
                    | p :: _ => .ok (.success text p.text)

/-! Model of POST `/a2a/optimizer` (`main.py` lines 57-156). -/

/-- The dispatched JSON-RPC call after `JSONRPCRequest(**body)` and the
`isinstance` checks succeed: `message/send` with a `MessageParams`
(its `configuration` is forwarded but never consulted) or `execute` with an
`ExecuteParams`. -/
inductive RpcCall
  | messageSend (message : A2AMessage)
  | execute (contextId taskId : Option String) (messages : List A2AMessage)
deriving DecidableEq, Repr

/-- What `a2a_optimizer` observes of the request body: unparseable JSON, or
parsed JSON with the values of `body.get("jsonrpc")` and `body.get("id")`
and the result of `JSONRPCRequest(**body)` plus the `isinstance` dispatch —
`.error d` when that raises (pydantic `ValidationError` or the
`"Invalid params"` `ValueError`), with `d` the `str(exc)` of the exception. -/
inductive ParsedBody
  | notJson
  | json (jsonrpcField : Option String) (idField : Option String)
      (schema : Except String RpcCall)
deriving Repr

/-- A JSON-RPC error object `{"code": ..., "message": ..., "data": {"details": ...}}`. -/
structure RpcError where
  code : Int
  message : String
  details : Option String := none
deriving DecidableEq, Repr

/-- The JSON body of an `/a2a/optimizer` response: a success envelope
(`id`, `result`) or an error envelope (`id` or null, `error`). -/
inductive RpcResponse
  | success (id : String) (result : TaskResult)
  | failure (id : Option String) (error : RpcError)
deriving DecidableEq, Repr

/-- The message list and `contextId`/`taskId` handed to
`process_messages` for a dispatched call (`main.py` lines 106-113 and the
`getattr(rpc_req.params, ..., None)` reads at lines 134-139). -/
def callMessages : RpcCall → List A2AMessage × Option String × Option String
  | .messageSend m => ([m], none, none)
  | .execute c t ms => (ms, c, t)

/-- Model of `a2a_optimizer` (`main.py` lines 57-156), returning the HTTP status code
and the JSON-RPC response body.  `contentTypeJson` is whether the
Content-Type header starts with `application/json`; `bodyNonEmpty` whether
the raw body bytes are non-empty. -/
def a2aOptimizer (g : GenIds) (simplifyFn : String → String) (agentReady : Bool)
    (contentTypeJson bodyNonEmpty : Bool) (body : ParsedBody) : Nat × RpcResponse :=
  if !contentTypeJson then
    (400, .failure none { code := -32600, message := "Content-Type must be application/json" })
  else if !bodyNonEmpty then
    (400, .failure none { code := -32600, message := "Empty request body" })
  else
    match body with
    | .notJson =>
        (400, .failure none { code := -32600, message := "Invalid JSON in request body" })
    | .json jsonrpcField idField schema =>
        match jsonrpcField, idField with
        | some v, some i =>
            if v ≠ "2.0" then
              (400, .failure (some i) { code := -32600, message := "Invalid JSON-RPC request" })
            else
              match schema with
              | .error d =>
                  -- JSONRPCRequest(**body) or the isinstance check raised:
                  -- caught by the top-level handler
                  (500, .failure (some i)
                    { code := -32603, message := "Internal error", details := some d })
              | .ok call =>
                  if !agentReady then
                    (500, .failure (some i)
                      { code := -32603, message := "Optimizer agent not initialized" })
                  else
                    let args := callMessages call
                    match processMessages g simplifyFn args.1 args.2.1 args.2.2 with
                    | .ok r => (200, .success i r)
                    | .error e =>
                        -- the agent's ValueError reaches the catch-all
                        (500, .failure (some i)
                          { code := -32603, message := "Internal error",
                            details := some e.details })
        | _, _ =>
            (400, .failure idField { code := -32600, message := "Invalid JSON-RPC request" })

/-! Shared fixtures for concrete witness runs. -/

/-- A fixed generator record standing for one draw of uuids/timestamp. -/
def g0 : GenIds :=
  { taskId := "task-0", contextId := "ctx-0", messageId := "msg-0"
    artifactId := "art-0", timestamp := "ts-0" }

/-- A user message carrying the single text part `"hi"`. -/
def msgHi : A2AMessage :=
  { role := .user, parts := [{ kind := .text, text := some "hi" }], messageId := "m-in" }

/-- The agent reply produced for `msgHi` under `g0` with the identity
simplifier. -/
def replyHi : A2AMessage :=
  { role := .agent, parts := [{ kind := .text, text := some "hi" }]
    messageId := "msg-0", taskId := some "task-0" }

/-- The task result produced for `[msgHi]` under `g0` with the identity
simplifier. -/
def resultHi : TaskResult :=
  { id := "task-0", contextId := "ctx-0"
    status := { state := .completed, timestamp := "ts-0", message := some replyHi }
    artifacts := [{ artifactId := "art-0", name := "simplified_text"
                    parts := [{ kind := .text, text := some "hi" }] }]
    history := [msgHi, replyHi] }

/-! Shape lemma: every successful `processMessages` run produces exactly the
record built at `optimizer_agent.py` lines 83-102. -/

/-- Helper describing the record a successful `processMessages` run returns. -/
def builtResult (g : GenIds) (simplifyFn : String → String)
    (messages : List A2AMessage) (contextId taskId : Option String)
    (userMsg : A2AMessage) : TaskResult :=
  let tid := pyOr taskId g.taskId
  let simplified := simplifyFn (firstTruthyTextStripped userMsg.parts)
  let responseMsg : A2AMessage :=
    { role := .agent, parts := [{ kind := .text, text := some simplified }]
      messageId := g.messageId, taskId := some tid }
  { id := tid
    contextId := pyOr contextId g.contextId
    status := { state := .completed, timestamp := g.timestamp, message := some responseMsg }
    artifacts := [{ artifactId := g.artifactId, name := "simplified_text"
                    parts := [{ kind := .text, text := some simplified }] }]
    history := messages ++ [responseMsg] }

/-- Elimination lemma: a successful `processMessages` run implies the input
was non-empty, its last message had usable text, and the result is exactly
`builtResult`. -/
theorem processMessages_ok_elim (g : GenIds) (f : String → String)
    (msgs : List A2AMessage) (c t : Option String) (r : TaskResult)
    (h : processMessages g f msgs c t = .ok r) :
    ∃ um, msgs.getLast? = some um ∧ firstTruthyTextStripped um.parts ≠ "" ∧
      r = builtResult g f msgs c t um := by
  cases hL : msgs.getLast? with
  | none => simp [processMessages, hL] at h
  | some um =>
      by_cases he : firstTruthyTextStripped um.parts = ""
      · simp [processMessages, hL, he] at h
      · refine ⟨um, rfl, he, ?_⟩
        simp only [processMessages, hL, if_neg he] at h
        cases h
        rfl

/-- Introduction lemma: when the input is non-empty and its last message has
usable text, `processMessages` succeeds with exactly `builtResult`. -/
theorem processMessages_ok_intro (g : GenIds) (f : String → String)
    (msgs : List A2AMessage) (c t : Option String) (um : A2AMessage)
    (hL : msgs.getLast? = some um) (he : firstTruthyTextStripped um.parts ≠ "") :
    processMessages g f msgs c t = .ok (builtResult g f msgs c t um) := by
  simp only [processMessages, hL, if_neg he]
  rfl

/-- C8: `process_messages` applied to an empty message list fails with
`ValueError("No messages provided")` and constructs no `TaskResult`
(`optimizer_agent.py` lines 69-70). -/
theorem c8_empty_messages_rejected (g : GenIds) (f : String → String)
    (c t : Option String) :
    processMessages g f [] c t = .error (.valueError "No messages provided") := rfl

/-- A non-empty message list whose only message has no text part. -/
def msgNoText : A2AMessage :=
  { role := .user, parts := [{ kind := .file, file_url := some "http://example/f2" }]
    messageId := "m-notext" }

/-- Counterexample for C1 as stated: on the non-empty input `[msgNoText]`
`process_messages` raises `ValueError` instead of returning a `TaskResult`,
so the round-trip property cannot hold unconditionally for every non-empty
input list. -/
theorem c1_counterexample :
    [msgNoText] ≠ ([] : List A2AMessage) ∧
      processMessages g0 id [msgNoText] none none =
        .error (.valueError "No text content in message") :=
  ⟨by decide, rfl⟩

/-- C1 amended: whenever `process_messages` returns a `TaskResult` (which it
does exactly when the input is non-empty and its last message has usable
text), its `history` is the input list `M` with exactly one agent-role
message appended at the end — no element of `M` altered, removed, or
reordered (`optimizer_agent.py` lines 94 and 101). -/
theorem c1_history_roundtrip (g : GenIds) (f : String → String)
    (msgs : List A2AMessage) (c t : Option String) (r : TaskResult)
    (h : processMessages g f msgs c t = .ok r) :
    ∃ reply, reply.role = .agent ∧ r.history = msgs ++ [reply] := by
  obtain ⟨um, _, _, rfl⟩ := processMessages_ok_elim g f msgs c t r h
  exact ⟨_, rfl, rfl⟩

/-- Witness for C1 at the concrete input `[msgHi]`. -/
theorem c1_history_roundtrip_witness :
    processMessages g0 id [msgHi] none none = .ok resultHi ∧
      ∃ reply, reply.role = .agent ∧ resultHi.history = [msgHi] ++ [reply] :=
  ⟨rfl, c1_history_roundtrip g0 id [msgHi] none none resultHi rfl⟩

/-- C9: every `TaskResult` ever returned by `process_messages` has
`status.state = "completed"`; no path produces `"failed"`, `"working"`, or
`"input-required"` (`optimizer_agent.py` line 99). -/
theorem c9_state_always_completed (g : GenIds) (f : String → String)
    (msgs : List A2AMessage) (c t : Option String) (r : TaskResult)
    (h : processMessages g f msgs c t = .ok r) :
    r.status.state = .completed := by
  obtain ⟨um, _, _, rfl⟩ := processMessages_ok_elim g f msgs c t r h
  rfl

/-- Witness for C9 at the concrete input `[msgHi]`. -/
theorem c9_state_always_completed_witness :
    processMessages g0 id [msgHi] none none = .ok resultHi ∧
      resultHi.status.state = .completed :=
  ⟨rfl, c9_state_always_completed g0 id [msgHi] none none resultHi rfl⟩

/-- C10: every returned `TaskResult` is internally consistent:
`status.message` is the last element of `history`; there is exactly one
artifact, named `"simplified_text"`, whose single text part carries the same
text as the reply's single part; the reply's `taskId` equals the result's
`id`; and the reply's role is `"agent"` (`optimizer_agent.py` lines 83-102). -/
theorem c10_result_consistency (g : GenIds) (f : String → String)
    (msgs : List A2AMessage) (c t : Option String) (r : TaskResult)
    (h : processMessages g f msgs c t = .ok r) :
    ∃ reply txt,
      r.status.message = some reply ∧
      r.history.getLast? = some reply ∧
      reply.role = .agent ∧
      reply.taskId = some r.id ∧
      reply.parts = [{ kind := .text, text := some txt }] ∧
      ∃ aid, r.artifacts =
        [{ artifactId := aid, name := "simplified_text"
           parts := [{ kind := .text, text := some txt }] }] := by
  obtain ⟨um, _, _, rfl⟩ := processMessages_ok_elim g f msgs c t r h
  refine ⟨_, _, rfl, ?_, rfl, rfl, rfl, g.artifactId, rfl⟩
  simp [builtResult]

/-- Witness for C10 at the concrete input `[msgHi]`. -/
theorem c10_result_consistency_witness :
    processMessages g0 id [msgHi] none none = .ok resultHi ∧
      ∃ reply txt,
        resultHi.status.message = some reply ∧
        resultHi.history.getLast? = some reply ∧
        reply.role = .agent ∧
        reply.taskId = some resultHi.id ∧
        reply.parts = [{ kind := .text, text := some txt }] ∧
        ∃ aid, resultHi.artifacts =
          [{ artifactId := aid, name := "simplified_text"
             parts := [{ kind := .text, text := some txt }] }] :=
  ⟨rfl, c10_result_consistency g0 id [msgHi] none none resultHi rfl⟩

/-! Claim C2: text extraction.  The spec-side selection rule is written out
from the claim's words, to be compared with the code's extraction. -/

/-- Spec-side definition following the claim's words (C2): scan the parts in
order and select the first part whose `kind` is `"text"` and whose `text` is
non-empty after trimming surrounding whitespace; the extracted value is the
trimmed text.  This is a refinement comparison point, not part of the code
model. -/
def specExtractText (ps : List MessagePart) : Option String :=
  (ps.find? (fun p => p.kind == PartKind.text && pyStrip (p.text.getD "") ≠ "")).map
    (fun p => pyStrip (p.text.getD ""))

/-- Parts whose first text part is whitespace-only and whose second text
part carries `"hello"`: the code selects the first (truthy before trimming)
and then rejects, the claim's rule would select the second. -/
def wsParts : List MessagePart :=
  [{ kind := .text, text := some "   " }, { kind := .text, text := some "hello" }]

/-- A user message with `wsParts`. -/
def msgWs : A2AMessage := { role := .user, parts := wsParts, messageId := "m-ws" }

/-- Counterexample for C2 as stated: on a last message whose parts are a
whitespace-only text part followed by a `"hello"` text part, the claim's
extraction rule yields `"hello"`, but `process_messages` fails with
`ValueError("No text content in message")` because the code filters on
`p.text` being truthy before stripping. -/
theorem c2_counterexample :
    specExtractText wsParts = some "hello" ∧
      processMessages g0 id [msgWs] none none =
        .error (.valueError "No text content in message") :=
  ⟨by decide, rfl⟩

/-- Intro lemma: when the last message's extraction comes up empty,
`process_messages` fails with the no-text `ValueError`. -/
theorem processMessages_noText_intro (g : GenIds) (f : String → String)
    (msgs : List A2AMessage) (c t : Option String) (um : A2AMessage)
    (hL : msgs.getLast? = some um) (he : firstTruthyTextStripped um.parts = "") :
    processMessages g f msgs c t = .error (.valueError "No text content in message") := by
  simp [processMessages, hL, he]

/-- Characterization of the extraction loop: it returns the stripped text of
the first part passing the code's filter (`kind == "text" and p.text`),
defaulting to `""`. -/
theorem firstTruthyTextStripped_eq (ps : List MessagePart) :
    firstTruthyTextStripped ps =
      ((ps.find? isTruthyTextPart).map (fun p => pyStrip (p.text.getD ""))).getD "" := by
  induction ps with
  | nil => rfl
  | cons p rest ih =>
      by_cases hp : isTruthyTextPart p
      · simp [firstTruthyTextStripped, List.find?_cons_of_pos, hp]
      · have h1 : firstTruthyTextStripped (p :: rest) = firstTruthyTextStripped rest := by
          simp [firstTruthyTextStripped, hp]
        rw [h1, List.find?_cons_of_neg _ hp, ih]

/-- C2 amended: `process_messages` selects the first part whose kind is
`"text"` and whose `text` is present and non-empty *before* trimming; the
extracted input is that text trimmed.  If no such part exists, or the
selected text trims to empty, it fails with
`ValueError("No text content in message")`. -/
theorem c2_extraction_amended (g : GenIds) (f : String → String)
    (msgs : List A2AMessage) (c t : Option String) (um : A2AMessage)
    (hL : msgs.getLast? = some um) :
    match um.parts.find? isTruthyTextPart with
    | none =>
        processMessages g f msgs c t = .error (.valueError "No text content in message")
    | some p =>
        if pyStrip (p.text.getD "") = "" then
          processMessages g f msgs c t = .error (.valueError "No text content in message")
        else
          ∃ r, processMessages g f msgs c t = .ok r ∧
            r.artifacts = [{ artifactId := g.artifactId, name := "simplified_text"
                             parts := [{ kind := .text
                                         text := some (f (pyStrip (p.text.getD ""))) }] }] := by
  have hEq := firstTruthyTextStripped_eq um.parts
  cases hF : um.parts.find? isTruthyTextPart with
  | none =>
      rw [hF] at hEq
      exact processMessages_noText_intro g f msgs c t um hL (by simpa using hEq)
  | some p =>
      rw [hF] at hEq
      simp only [Option.map_some', Option.getD_some] at hEq
      show if pyStrip (p.text.getD "") = "" then
            processMessages g f msgs c t = .error (.valueError "No text content in message")
          else
            ∃ r, processMessages g f msgs c t = .ok r ∧
              r.artifacts = [{ artifactId := g.artifactId, name := "simplified_text"
                               parts := [{ kind := .text
                                           text := some (f (pyStrip (p.text.getD ""))) }] }]
      by_cases hext : pyStrip (p.text.getD "") = ""
      · rw [if_pos hext]
        exact processMessages_noText_intro g f msgs c t um hL (hEq.trans hext)
      · rw [if_neg hext]
        refine ⟨builtResult g f msgs c t um, processMessages_ok_intro g f msgs c t um hL ?_, ?_⟩
        · rw [hEq]; exact hext
        · simp [builtResult, hEq]

/-- Message whose parts are a file part followed by a text part `"  hello  "`
(the worked example in C2). -/
def msgHello : A2AMessage :=
  { role := .user
    parts := [{ kind := .file, file_url := some "http://example/file" },
              { kind := .text, text := some "  hello  " }]
    messageId := "m-hello" }

/-- Witness for the amended C2 at the claim's worked example: a file part
followed by the text part `"  hello  "` extracts `"hello"`. -/
theorem c2_extraction_amended_witness :
    ([msgHello].getLast? = some msgHello) ∧
      (match msgHello.parts.find? isTruthyTextPart with
       | none =>
           processMessages g0 id [msgHello] none none =
             .error (.valueError "No text content in message")
       | some p =>
           if pyStrip (p.text.getD "") = "" then
             processMessages g0 id [msgHello] none none =
               .error (.valueError "No text content in message")
           else
             ∃ r, processMessages g0 id [msgHello] none none = .ok r ∧
               r.artifacts = [{ artifactId := g0.artifactId, name := "simplified_text"
                                parts := [{ kind := .text
                                            text := some (id (pyStrip (p.text.getD ""))) }] }]) :=
  ⟨rfl, c2_extraction_amended g0 id [msgHello] none none msgHello rfl⟩

/-! Claims C3-C5: behaviour of the retry loop. -/

/-- An outcome sequence on which no attempt raises: every 200 response is
well-formed (the body parse `candidates[0].content.parts[0].text` succeeds),
no attempt is answered 429 (whose backoff call raises `AttributeError`,
see `sleepAttributeError`), and network failures occur at most on the final
attempt (a non-final network failure also reaches the broken backoff
call). -/
def safeOutcomes (outcomes : Nat → ProviderOutcome) (maxRetries : Nat) : Prop :=
  ∀ n, n < maxRetries →
    outcomes n ≠ ProviderOutcome.http 200 none ∧
    (∀ e, outcomes n ≠ ProviderOutcome.http 429 e) ∧
    (n + 1 < maxRetries → ∀ m, outcomes n ≠ ProviderOutcome.networkError m)

/-- Counterexample for C3 as stated: a provider that answers every attempt
with HTTP 200 and a body from which `candidates[0].content.parts[0].text`
cannot be extracted makes `_call_gemini_with_retry` raise (the `KeyError` /
`JSONDecodeError` is not caught), rather than return a text or fallback. -/
theorem c3_counterexample :
    callGeminiWithRetry (fun _ => .http 200 none) 3 =
      (.raised "malformed 200 response body", []) := rfl

/-- C3 amended: for every sequence of provider outcomes in which every 200
response has a well-formed body, no attempt is rate-limited with 429, and a
network failure occurs at most on the final allowed attempt, the retry loop
never raises: it returns either text extracted from some 200 response or one
of exactly three fallback strings.  Outside that domain the call raises: a
malformed 200 body propagates the uncaught parse exception
(`c3_counterexample`), and any 429 — or a network failure on a non-final
attempt — raises `AttributeError` because the backoff call
`httpx._utils.sleep` does not exist (`c5_rate_limit_crash`). -/
theorem c3_no_raise_amended (outcomes : Nat → ProviderOutcome) (maxRetries : Nat)
    (hsafe : safeOutcomes outcomes maxRetries) :
    ∃ s, (callGeminiWithRetry outcomes maxRetries).1 = .ok s ∧
      (s = fallbackSimplify ∨ s = fallbackReach ∨ s = fallbackGeneric ∨
        ∃ n, outcomes n = .http 200 (some s)) := by
  suffices h : ∀ remaining attempt sleeps, attempt + remaining = maxRetries →
      ∃ s, (retryLoop outcomes maxRetries remaining attempt sleeps).1 = .ok s ∧
        (s = fallbackSimplify ∨ s = fallbackReach ∨ s = fallbackGeneric ∨
          ∃ n, outcomes n = .http 200 (some s)) by
    exact h maxRetries 0 [] (by omega)
  intro remaining
  induction remaining with
  | zero => exact fun attempt sleeps _ => ⟨fallbackGeneric, rfl, Or.inr (Or.inr (Or.inl rfl))⟩
  | succ rem ih =>
      intro attempt sleeps hsum
      have hlt : attempt < maxRetries := by omega
      obtain ⟨hno200none, hno429, hnonet⟩ := hsafe attempt hlt
      cases ho : outcomes attempt with
      | http status extracted =>
          by_cases h200 : status = 200
          · cases extracted with
            | none => exact absurd (h200 ▸ ho) hno200none
            | some tx =>
                refine ⟨tx, ?_, Or.inr (Or.inr (Or.inr ⟨attempt, h200 ▸ ho⟩))⟩
                simp [retryLoop, ho, h200]
          · by_cases h429 : status = 429
            · exact absurd (h429 ▸ ho) (hno429 extracted)
            · by_cases hlast : attempt = maxRetries - 1
              · subst hlast
                exact ⟨fallbackSimplify, by simp [retryLoop, ho, h200, h429], Or.inl rfl⟩
              · obtain ⟨s, hs, hc⟩ := ih (attempt + 1) sleeps (by omega)
                exact ⟨s, by simp [retryLoop, ho, h200, h429, hlast]; exact hs, hc⟩
      | networkError m =>
          by_cases hlast : attempt = maxRetries - 1
          · subst hlast
            exact ⟨fallbackReach, by simp [retryLoop, ho], Or.inr (Or.inl rfl)⟩
          · exact absurd ho (hnonet (by omega) m)

/-- Outcome sequence for the C3 witness: one HTTP 500, then a well-formed
200 carrying `"easy"` — no 429 and no network failure anywhere. -/
def c3SafeOutcomes : Nat → ProviderOutcome :=
  fun n => if n = 0 then .http 500 none else .http 200 (some "easy")

/-- Check that `c3SafeOutcomes` is in the no-raise domain. -/
theorem c3SafeOutcomes_safe : safeOutcomes c3SafeOutcomes 3 := by
  intro n _
  unfold c3SafeOutcomes
  by_cases h0 : n = 0 <;> simp [h0]

/-- Witness for the amended C3 at `c3SafeOutcomes`. -/
theorem c3_no_raise_amended_witness :
    safeOutcomes c3SafeOutcomes 3 ∧
      ∃ s, (callGeminiWithRetry c3SafeOutcomes 3).1 = .ok s ∧
        (s = fallbackSimplify ∨ s = fallbackReach ∨ s = fallbackGeneric ∨
          ∃ n, c3SafeOutcomes n = .http 200 (some s)) :=
  ⟨c3SafeOutcomes_safe, c3_no_raise_amended c3SafeOutcomes 3 c3SafeOutcomes_safe⟩

/-- Counterexample for C4 as stated: with HTTP 500 on every attempt the
returned fallback uses the U+2019 right single quotation mark, so it is not
character-for-character the claim's string with an ASCII apostrophe
(`\x27`). -/
theorem c4_counterexample :
    callGeminiWithRetry (fun _ => .http 500 none) 3 = (.ok fallbackSimplify, []) ∧
      fallbackSimplify ≠ "Sorry, I couldn\x27t simplify the text right now." :=
  ⟨rfl, by decide⟩

/-- C4 amended: if the provider returns a non-200, non-429 HTTP status on
every one of the `maxRetries` (> 0) attempts, the call returns exactly the
string `"Sorry, I couldn’t simplify the text right now."` (with a U+2019
apostrophe, as written at `optimizer_agent.py` line 137), and performs no
backoff sleeps. -/
theorem c4_fallback_on_exhausted_amended (outcomes : Nat → ProviderOutcome)
    (maxRetries : Nat) (hpos : 0 < maxRetries)
    (hbad : ∀ n, n < maxRetries → ∃ status extracted,
      outcomes n = .http status extracted ∧ status ≠ 200 ∧ status ≠ 429) :
    callGeminiWithRetry outcomes maxRetries = (.ok fallbackSimplify, []) := by
  suffices h : ∀ remaining attempt, attempt + remaining = maxRetries → 0 < remaining →
      retryLoop outcomes maxRetries remaining attempt [] = (.ok fallbackSimplify, []) by
    exact h maxRetries 0 (by omega) hpos
  intro remaining
  induction remaining with
  | zero => omega
  | succ rem ih =>
      intro attempt hsum _
      obtain ⟨status, extracted, ho, h200, h429⟩ := hbad attempt (by omega)
      by_cases hlast : attempt = maxRetries - 1
      · subst hlast
        simp [retryLoop, ho, h200, h429]
      · have hrem : 0 < rem := by omega
        have := ih (attempt + 1) (by omega) hrem
        simp [retryLoop, ho, h200, h429, hlast, this]

/-- Outcome sequence for the C4 witness: HTTP 500 on every attempt. -/
def c4Outcomes : Nat → ProviderOutcome := fun _ => .http 500 none

/-- Witness for the amended C4: HTTP 500 on all three attempts yields the
source's fallback string. -/
theorem c4_fallback_on_exhausted_amended_witness :
    0 < 3 ∧ (∀ n, n < 3 → ∃ status extracted,
        c4Outcomes n = ProviderOutcome.http status extracted ∧
          status ≠ 200 ∧ status ≠ 429) ∧
      callGeminiWithRetry c4Outcomes 3 = (.ok fallbackSimplify, []) :=
  ⟨by decide, fun n _ => ⟨500, none, rfl, by decide, by decide⟩,
    c4_fallback_on_exhausted_amended c4Outcomes 3 (by decide)
      (fun n _ => ⟨500, none, rfl, by decide, by decide⟩)⟩

/-- Outcome sequence of C5's scenario, which is the failing input: HTTP 429
on the first two attempts, a well-formed 200 carrying `"easy"` on the
third. -/
def rateLimited429Outcomes : Nat → ProviderOutcome :=
  fun n => if n = 0 then .http 429 none
           else if n = 1 then .http 429 none else .http 200 (some "easy")

/-- C5 (code bug): on the claim's scenario — 429, 429, then a well-formed
200 — the code performs no backoff and never reaches the 200: the first
backoff evaluates `httpx._utils.sleep`, which does not exist, so the call
raises `AttributeError` at attempt 0 (uncaught, since only
`httpx.RequestError` is handled).  The claim states the intent the spec and
the code itself document (line 131 logs the retry wait, the class docstring
promises retry), but the code crashes instead of waiting 1 then 2 time-units
and returning the extracted text. -/
theorem c5_rate_limit_crash :
    callGeminiWithRetry rateLimited429Outcomes 3 =
      (.raised sleepAttributeError, []) := rfl

/-! Stability of stripping: a stripped non-empty string strips to itself-like
non-empty content.  Needed because `/optimize` strips the text once and the
agent strips it again. -/

/-- Unfolding `stripChars` through Mathlib's `rdropWhile`. -/
theorem stripChars_eq_rdrop (l : List Char) :
    stripChars l = List.rdropWhile Char.isWhitespace (l.dropWhile Char.isWhitespace) := rfl

/-- The head of a non-trivial `dropWhile` result fails the predicate. -/
theorem dropWhile_eq_cons_not (p : Char → Bool) :
    ∀ (l : List Char) (a : Char) (t : List Char),
      List.dropWhile p l = a :: t → p a = false := by
  intro l
  induction l with
  | nil => intro a t h; cases h
  | cons x xs ih =>
      intro a t h
      by_cases hx : p x
      · rw [List.dropWhile_cons_of_pos hx] at h
        exact ih a t h
      · rw [List.dropWhile_cons_of_neg hx] at h
        cases h
        simpa using hx

/-- Stripping a stripped non-empty character list leaves it non-empty. -/
theorem stripChars_ne_nil_stable (d : List Char) (h : stripChars d ≠ []) :
    stripChars (stripChars d) ≠ [] := by
  obtain ⟨b, t', hB⟩ : ∃ b t', stripChars d = b :: t' := by
    cases hSC : stripChars d with
    | nil => exact absurd hSC h
    | cons b t' => exact ⟨b, t', rfl⟩
  have hpre : stripChars d <+: d.dropWhile Char.isWhitespace := by
    rw [stripChars_eq_rdrop]
    exact List.rdropWhile_prefix _ _
  obtain ⟨k, hk⟩ := hpre
  have hAform : d.dropWhile Char.isWhitespace = b :: (t' ++ k) := by
    rw [← hk, hB]
    simp
  have hb : Char.isWhitespace b = false := dropWhile_eq_cons_not _ d b (t' ++ k) hAform
  intro hcontra
  have hdropB : (stripChars d).dropWhile Char.isWhitespace = stripChars d := by
    rw [hB, List.dropWhile_cons_of_neg (by simp [hb])]
  rw [stripChars_eq_rdrop, hdropB] at hcontra
  have hall := List.rdropWhile_eq_nil_iff.mp hcontra
  have hbmem : b ∈ stripChars d := by
    rw [hB]
    exact List.mem_cons_self b t'
  have := hall b hbmem
  rw [hb] at this
  cases this

/-- Stripping an already-stripped non-empty string leaves it non-empty. -/
theorem pyStrip_nonempty_stable (s : String) (h : pyStrip s ≠ "") :
    pyStrip (pyStrip s) ≠ "" := by
  have h1 : stripChars s.data ≠ [] := by
    intro hc
    apply h
    show String.mk (stripChars s.data) = ""
    rw [hc]
  have h2 := stripChars_ne_nil_stable s.data h1
  intro hc
  exact h2 (congrArg String.data hc)

/-! Claim C6: the `/optimize` route. -/

/-- Request bodies the `/optimize` handler can process without an exception
escaping: unparseable JSON, or a JSON object whose `"text"` member (when
present) is a string. -/
def goodOptimizeBody : OptimizeBody → Prop
  | .invalidJson => True
  | .nonDict => False
  | .dict none => True
  | .dict (some (.str _)) => True
  | .dict (some .nonStr) => False

/-- Counterexample for C6 as stated: a request body that is valid JSON but
not an object (for instance `[]`) makes `data.get("text", "")` raise
`AttributeError`, which escapes the handler and yields HTTP 500 — a non-2xx
status. -/
theorem c6_counterexample :
    optimizeText g0 id true OptimizeBody.nonDict = .serverError := rfl

/-- C6 amended: for every request body that fails to parse as JSON or parses
to an object whose `"text"` member (when present) is a string, the route
returns HTTP 200 — `{"error": ...}` on the failure conditions and
`{"original", "optimized"}` on success (given the provider call inside the
agent returns).  Bodies parsing to a non-object, or to an object with a
non-string `"text"` member, raise inside the handler and yield HTTP 500. -/
theorem c6_optimize_http200_amended (g : GenIds) (f : String → String) (ready : Bool)
    (body : OptimizeBody) (hgood : goodOptimizeBody body) :
    ∃ out, optimizeText g f ready body = .ok out := by
  cases body with
  | invalidJson => exact ⟨_, rfl⟩
  | nonDict => cases hgood
  | dict tf =>
      cases tf with
      | none => exact ⟨_, rfl⟩
      | some v =>
          cases v with
          | nonStr => cases hgood
          | str s =>
              by_cases hts : pyStrip s = ""
              · exact ⟨.errorMsg "No text provided.", by simp [optimizeText, hts]⟩
              · cases ready with
                | false =>
                    exact ⟨.errorMsg "Optimizer agent not initialized.",
                      by simp [optimizeText, hts]⟩
                | true =>
                    have hL :
                        [({ role := .user
                            parts := [{ kind := .text, text := some (pyStrip s) }]
                            messageId := g.messageId } : A2AMessage)].getLast? =
                          some ({ role := .user
                                  parts := [{ kind := .text, text := some (pyStrip s) }]
                                  messageId := g.messageId } : A2AMessage) := rfl
                    have he : firstTruthyTextStripped
                        [({ kind := .text, text := some (pyStrip s) } : MessagePart)] ≠ "" := by
                      simpa [firstTruthyTextStripped, isTruthyTextPart, optTruthy, hts]
                        using pyStrip_nonempty_stable s hts
                    have hok := processMessages_ok_intro g f
                      [{ role := .user
                         parts := [{ kind := .text, text := some (pyStrip s) }]
                         messageId := g.messageId }] none none _ hL he
                    refine ⟨.success (pyStrip s)
                      (some (f (firstTruthyTextStripped
                        [({ kind := .text, text := some (pyStrip s) } : MessagePart)]))), ?_⟩
                    simp [optimizeText, hts, hok, builtResult]

/-- Witness for the amended C6 at a concrete well-formed request body. -/
theorem c6_optimize_http200_amended_witness :
    goodOptimizeBody (.dict (some (.str "Hard text"))) ∧
      ∃ out, optimizeText g0 id true (.dict (some (.str "Hard text"))) = .ok out :=
  ⟨trivial, c6_optimize_http200_amended g0 id true (.dict (some (.str "Hard text"))) trivial⟩

/-! Claim C7: agent `ValueError` surfaced through the JSON-RPC catch-all. -/

/-- C7: when the agent raises `ValueError` (the `InvalidInput` conditions:
no messages, or no usable text) while handling a valid `/a2a/optimizer`
request, the route responds HTTP 500 with the JSON-RPC error envelope
`{code: -32603, message: "Internal error", data.details: <failure text>}`
and the id taken from the parsed body (`main.py` lines 146-156). -/
theorem c7_invalid_input_envelope (g : GenIds) (f : String → String) (i : String)
    (call : RpcCall) (m : String)
    (h : processMessages g f (callMessages call).1 (callMessages call).2.1
        (callMessages call).2.2 = .error (.valueError m)) :
    a2aOptimizer g f true true true (.json (some "2.0") (some i) (.ok call)) =
      (500, .failure (some i)
        { code := -32603, message := "Internal error", details := some m }) := by
  simp [a2aOptimizer, h, AgentError.details]

/-- Witness for C7: an `execute` request with an empty message list triggers
`ValueError("No messages provided")` and the -32603 envelope. -/
theorem c7_invalid_input_envelope_witness :
    processMessages g0 id (callMessages (RpcCall.execute none none [])).1
        (callMessages (RpcCall.execute none none [])).2.1
        (callMessages (RpcCall.execute none none [])).2.2 =
      .error (.valueError "No messages provided") ∧
      a2aOptimizer g0 id true true true
          (.json (some "2.0") (some "req-1") (.ok (.execute none none []))) =
        (500, .failure (some "req-1")
          { code := -32603, message := "Internal error"
            details := some "No messages provided" }) :=
  ⟨rfl, c7_invalid_input_envelope g0 id "req-1" (.execute none none [])
    "No messages provided" rfl⟩

end FifthGrade
